import Mathlib

/-!
Shallow embedding of the property-management core of `src/models.py`
(`Property.get_rent_status` and `Property.get_activity`), together with
theorems settling the specification claims about them.

Modelling conventions:
* Python `datetime.date` values are `Date` records (year/month/day, compared
  lexicographically, which coincides with chronological order on valid dates).
* The ORM (`objects.filter` / `objects.get`) is modelled by list filtering over
  an explicit `DB` snapshot; `objects.get` distinguishes zero matches
  (`DoesNotExist`), one match, and several (`MultipleObjectsReturned`).
* Python exceptions are modelled with `Except String`: a raised, uncaught
  exception is `.error msg`.
* The source reads the ambient wall clock (`date.today()`, lines 106 and 340 of
  `src/models.py`) in addition to its `today` parameter; the wall clock is made
  an explicit `sysToday` argument.
-/

namespace NS

/-- A calendar date, as Python's `datetime.date`. -/
structure Date where
  year : Nat
  month : Nat
  day : Nat
deriving DecidableEq

/-- Python `a < b` on dates: lexicographic on (year, month, day). -/
def Date.lt (a b : Date) : Bool :=
  decide (a.year < b.year ∨ (a.year = b.year ∧
    (a.month < b.month ∨ (a.month = b.month ∧ a.day < b.day))))

/-- Python `a <= b` on dates. -/
def Date.le (a b : Date) : Bool := a.lt b || a == b

/-- Gregorian leap-year rule (as `calendar.isleap`). -/
def isLeap (y : Nat) : Bool :=
  (y % 4 == 0 && y % 100 != 0) || (y % 400 == 0)

/-- Number of days in month `m` of year `y` (as `calendar.monthrange(y, m)[1]`). -/
def daysInMonth (y m : Nat) : Nat :=
  if m == 2 then (if isLeap y then 29 else 28)
  else if m == 4 || m == 6 || m == 9 || m == 11 then 30
  else 31

/-- Days in the months of year `y` strictly before month `m`. -/
def daysBeforeMonth (y : Nat) : Nat → Nat
  | 0 => 0
  | 1 => 0
  | n + 2 => daysBeforeMonth y (n + 1) + daysInMonth y (n + 1)

/-- Number of leap years in `[1, y)`. -/
def leapsBefore (y : Nat) : Nat :=
  (y - 1) / 4 - (y - 1) / 100 + (y - 1) / 400

/-- Rata-die style day count of a date.  For valid dates this is strictly
monotone in the lexicographic order, and adding a `timedelta` of `n` days to a
date adds `n` to its day count; the grace-window comparison
`today <= last_due + grace_period` of line 145 of `src/models.py` is modelled
through it. -/
def Date.toDays (d : Date) : Nat :=
  365 * (d.year - 1) + leapsBefore d.year + daysBeforeMonth d.year d.month + d.day

/-- `dateutil` `d - relativedelta(months=1)`: step the month back (rolling the
year), clamping the day to the target month's length. -/
def subMonth (d : Date) : Date :=
  ⟨if d.month = 1 then d.year - 1 else d.year,
   if d.month = 1 then 12 else d.month - 1,
   min d.day (daysInMonth (if d.month = 1 then d.year - 1 else d.year)
                          (if d.month = 1 then 12 else d.month - 1))⟩

/-- `dateutil` `d + relativedelta(day=dd)`: replace the day-of-month with `dd`,
clamped to the month's length. -/
def withDay (d : Date) (dd : Nat) : Date :=
  ⟨d.year, d.month, min dd (daysInMonth d.year d.month)⟩

/-- Lines 114-121 of `src/models.py`: `date(today.year, today.month,
rent_due_day)`, falling back to the last day of the month when the constructor
raises `ValueError` (day out of range for the month). -/
def thisMonthDue (today : Date) (dueDay : Nat) : Date :=
  if 1 ≤ dueDay ∧ dueDay ≤ daysInMonth today.year today.month then
    ⟨today.year, today.month, dueDay⟩
  else
    ⟨today.year, today.month, daysInMonth today.year today.month⟩

/-- Lines 126-131 of `src/models.py`: the most recent due date not after the
current cycle.  If `today` precedes this month's due date, roll back one month
and re-anchor the day to `rent_due_day` when the rollback changed it. -/
def lastDue (today : Date) (dueDay : Nat) : Date :=
  if today.lt (thisMonthDue today dueDay) then
    (if (subMonth (thisMonthDue today dueDay)).day ≠ dueDay then
      withDay (subMonth (thisMonthDue today dueDay)) dueDay
    else subMonth (thisMonthDue today dueDay))
  else thisMonthDue today dueDay

/-- A user profile, with the contact identifiers `get_activity` consults. -/
structure UserProfile where
  id : Nat
  email : String
  phone1 : Option String
  phone2 : Option String
deriving DecidableEq

/-- A lease contract row (`contracts.models.LeaseContract`; fields as used by
`src/models.py` and listed in the data model). -/
structure LeaseContract where
  id : Nat
  property : Nat
  tenant : UserProfile
  start_date : Date
  end_date : Date
  rent_due_day : Nat
  days_grace_period : Nat
deriving DecidableEq

/-- A management contract row.  Modelled from the spec: `contracts.models` is
not under `src/`; the spec gives the fields {manager, owner, property,
start_date, end_date} (note: no `created_by` and no `assignee` field). -/
structure ManagementContract where
  id : Nat
  property : Nat
  manager : UserProfile
  owner : UserProfile
  start_date : Date
  end_date : Date
deriving DecidableEq

/-- A maintenance request row (`maintenance.models.MaintenanceRequest`; fields
as used by `src/models.py` and listed in the data model). -/
structure MaintenanceRequest where
  id : Nat
  property : Nat
  created_by : UserProfile
  assignee : UserProfile
  headline : String
  creation_date : Date
  assigned_date : Option Date
  resolution_date : Option Date
deriving DecidableEq

/-- A date or a datetime; Python's sort key truncates datetimes to dates. -/
inductive DT where
  | d (date : Date)
  | dt (date : Date) (seconds : Nat)
deriving DecidableEq

/-- `x.date() if type(x) == datetime else x` (sort key of line 392). -/
def DT.trunc : DT → Date
  | .d x => x
  | .dt x _ => x

/-- A message row (`unified_messages.models.Message`; fields as used by
`src/models.py` and listed in the data model). -/
structure MessageRec where
  id : Nat
  property : Nat
  user_profile : UserProfile
  sender : String
  recipients : String
  headline : String
  creation_date : DT
  typeName : String
deriving DecidableEq

/-- An invoice row (`finances.models.Invoice`; fields as used by
`src/models.py` and listed in the data model).  The invoice type is modelled by
its `InvoiceType` name; `amount()` by an integer. -/
structure Invoice where
  id : Nat
  property : Nat
  typeName : String
  payer : UserProfile
  payee : UserProfile
  amount : Int
  issued_date : Date
  due_date : Option Date
  paid_date : Option Date
deriving DecidableEq

/-- The record-store snapshot both operations read.  `invoiceTypes` holds the
names of the `InvoiceType` rows. -/
structure DB where
  leases : List LeaseContract
  contracts : List ManagementContract
  requests : List MaintenanceRequest
  messages : List MessageRec
  invoices : List Invoice
  invoiceTypes : List String
deriving DecidableEq

/-- A property row: its id and its owners (the `owners` many-to-many set). -/
structure Property where
  id : Nat
  owners : List UserProfile
deriving DecidableEq

/-- `Property.get_tenants` (lines 36-45): tenants of leases of this property
whose interval contains `today`. -/
def Property.get_tenants (p : Property) (db : DB) (today : Date) : List UserProfile :=
  ((db.leases.filter (fun l => l.property == p.id)).filter
    (fun l => l.start_date.le today && today.le l.end_date)).map (fun l => l.tenant)

/-- `Property.get_active_leases` (lines 79-89): leases of this property active
on `today`. -/
def Property.get_active_leases (p : Property) (db : DB) (today : Date) : List LeaseContract :=
  db.leases.filter
    (fun l => l.property == p.id && l.start_date.le today && today.le l.end_date)

/-- `InvoiceType.objects.get(name=n)` (line 135).  A missing row raises an
uncaught `InvoiceType.DoesNotExist`; a duplicate raises an uncaught
`MultipleObjectsReturned`. -/
def invoiceTypeGet (db : DB) (n : String) : Except String String :=
  match db.invoiceTypes.filter (fun x => x == n) with
  | [] => .error "InvoiceType.DoesNotExist"
  | [x] => .ok x
  | _ => .error "InvoiceType.MultipleObjectsReturned"

/-- `Invoice.objects.get(type=t, due_date=due, payer=payer)` (line 137; note:
not filtered by property).  Zero matches is `Invoice.DoesNotExist`, which the
caller catches (`.ok none`); several matches raise an uncaught
`MultipleObjectsReturned`. -/
def invoiceGet (db : DB) (t : String) (due : Date) (payer : UserProfile) :
    Except String (Option Invoice) :=
  match db.invoices.filter
      (fun i => i.typeName == t && i.due_date == some due && i.payer == payer) with
  | [] => .ok none
  | [i] => .ok (some i)
  | _ => .error "Invoice.MultipleObjectsReturned"

/-- The `for lease in leases` loop of lines 107-148, threading the `ret`
variable.  An `Invoice.DoesNotExist` from the lookup is caught by the handler
of line 149, which sets `ret = "!!"` and returns.  (The
`LeaseContract.DoesNotExist` handler of line 152 is dead code: `filter` never
raises it.) -/
def rentStatusLoop (db : DB) (today : Date) :
    List LeaseContract → String → Except String String
  | [], ret => .ok ret
  | lease :: rest, _ =>
    if today.lt lease.start_date then .ok "NA"
    else
      let ld := lastDue today lease.rent_due_day
      match invoiceTypeGet db "Rent" with
      | .error e => .error e
      | .ok rt =>
        match invoiceGet db rt ld lease.tenant with
        | .error e => .error e
        | .ok none => .ok "!!"
        | .ok (some inv) =>
          let ret :=
            if inv.paid_date.isSome then "Paid"
            else if ld.le today && today.toDays ≤ ld.toDays + lease.days_grace_period then
              "Due"
            else "Late"
          rentStatusLoop db today rest ret

/-- `Property.get_rent_status` (lines 91-156).  `sysToday` is the ambient
wall-clock date: line 106 fetches the active leases with
`self.get_active_leases(today=date.today())`, not with the `today`
parameter. -/
def Property.get_rent_status (p : Property) (db : DB) (today sysToday : Date) :
    Except String String :=
  rentStatusLoop db today (p.get_active_leases db sysToday) "!!"

/-- An activity-feed event (`build_event`, lines 158-181): a record of the six
fields; two events with identical fields are the same event. -/
structure Event where
  headline : String
  date : DT
  person : UserProfile
  actionText : String
  action : String
  type : String
deriving DecidableEq

/-- `unit_manager.helpers.angular_sref(route, args=(i,))`, the URL builder
(not under `src/`): an opaque route-plus-id reference. -/
def angular_sref (route : String) (i : Nat) : String :=
  route ++ "/" ++ toString i

/-- Concatenation of the lists produced per record (the repeated
`activity.append(...)` of each `for` loop). -/
def concatMap (f : α → List β) : List α → List β
  | [] => []
  | x :: xs => f x ++ concatMap f xs

/-- Sequencing of per-record event production that can raise. -/
def exceptConcatMap (f : α → Except String (List NS.Event)) :
    List α → Except String (List NS.Event)
  | [] => .ok []
  | x :: xs => do
    let ys ← f x
    let rest ← exceptConcatMap f xs
    pure (ys ++ rest)

/-- Events for one lease (lines 215-226 and the two analogous loops):
"Lease Started", plus "Lease Ended" when `end_date <= today`. -/
def leaseEvents (today : Date) (l : LeaseContract) : List Event :=
  let started : Event :=
    ⟨"Lease Started", .d l.start_date, l.tenant, "View Lease",
      angular_sref "lease-detail" l.id, "lease"⟩
  if l.end_date.le today then
    [started,
     ⟨"Lease Ended", .d l.end_date, l.tenant, "View Lease",
       angular_sref "lease-detail" l.id, "lease"⟩]
  else [started]

/-- Events for one management contract (lines 260-273). -/
def mgmtEvents (today : Date) (c : ManagementContract) : List Event :=
  let started : Event :=
    ⟨"Management Started", .d c.start_date, c.owner, "View Contract",
      angular_sref "mgmt-contract-detail" c.id, "management"⟩
  if c.end_date.le today then
    [started,
     ⟨"Management Ended", .d c.end_date, c.owner, "View Contract",
       angular_sref "mgmt-contract-detail" c.id, "management"⟩]
  else [started]

/-- Whether some management contract links `u` as manager of property `pid`
(the Django many-to-many `property__manager=user` traversal of line 243). -/
def managesProperty (db : DB) (u : UserProfile) (pid : Nat) : Bool :=
  db.contracts.any (fun c => c.property == pid && c.manager == u)

/-- Reading `contract.created_by` inside the maintenance loops (line 280):
`contract` is the leaked loop variable of the management-contract loop of line
260.  When that loop ran zero times the name is unbound (`NameError`); when it
is bound it holds a `ManagementContract`, which has no `created_by` field
(`AttributeError`). -/
def contractCreatedBy : Option ManagementContract → Except String UserProfile
  | none => .error "NameError: contract"
  | some _ => .error "AttributeError: created_by"

/-- Reading `contract.assignee` (lines 290, 300, 321, 331): same leaked
variable; `ManagementContract` has no `assignee` field. -/
def contractAssignee : Option ManagementContract → Except String UserProfile
  | none => .error "NameError: contract"
  | some _ => .error "AttributeError: assignee"

/-- Reading `contract.id` (lines 283, 293, 303): the leaked variable again. -/
def contractIdE : Option ManagementContract → Except String Nat
  | none => .error "NameError: contract"
  | some c => .ok c.id

/-- Events for one request of the `assignee=user` loop (lines 278-305).
Arguments are evaluated in source order, so `contract.created_by` raises
before anything is appended. -/
def assignedReqEvents (contract : Option ManagementContract) (today : Date)
    (r : MaintenanceRequest) : Except String (List Event) := do
  let person ← contractCreatedBy contract
  let cid ← contractIdE contract
  let ev1 : Event :=
    ⟨"New Request: " ++ r.headline, .d r.creation_date, person, "View Request",
      angular_sref "mgmt-contract-detail" cid, "maintenance"⟩
  let closed ← (match r.resolution_date with
    | some rd =>
      if rd.le today then do
        let pa ← contractAssignee contract
        let cid2 ← contractIdE contract
        pure [(⟨"Closed Request: " ++ r.headline, .d r.creation_date, pa,
          "View Request", angular_sref "mgmt-contract-detail" cid2,
          "maintenance"⟩ : Event)]
      else pure []
    | none => pure ([] : List Event))
  let assigned ← (match r.assigned_date with
    | some ad =>
      if ad.le today then do
        let pa ← contractAssignee contract
        let cid2 ← contractIdE contract
        pure [(⟨"Assigned Request: " ++ r.headline, .d ad, pa, "View Request",
          angular_sref "mgmt-contract-detail" cid2, "maintenance"⟩ : Event)]
      else pure []
    | none => pure ([] : List Event))
  pure (ev1 :: (closed ++ assigned))

/-- Events for one request of the `created_by=user` loop (lines 309-336).
The "New Request" event is well-formed; the "Closed Request" and
"Assigned Request" events read `contract.assignee`.  Note the "Closed" event
is dated at `creation_date` (line 320), not at the resolution date. -/
def createdReqEvents (contract : Option ManagementContract) (today : Date)
    (r : MaintenanceRequest) : Except String (List Event) := do
  let ev1 : Event :=
    ⟨"New Request: " ++ r.headline, .d r.creation_date, r.created_by,
      "View Request", angular_sref "maintenance-detail" r.id, "maintenance"⟩
  let closed ← (match r.resolution_date with
    | some rd =>
      if rd.le today then do
        let pa ← contractAssignee contract
        pure [(⟨"Closed Request: " ++ r.headline, .d r.creation_date, pa,
          "View Request", angular_sref "maintenance-detail" r.id,
          "maintenance"⟩ : Event)]
      else pure []
    | none => pure ([] : List Event))
  let assigned ← (match r.assigned_date with
    | some ad =>
      if ad.le today then do
        let pa ← contractAssignee contract
        pure [(⟨"Assigned Request: " ++ r.headline, .d ad, pa, "View Request",
          angular_sref "maintenance-detail" r.id, "maintenance"⟩ : Event)]
      else pure []
    | none => pure ([] : List Event))
  pure (ev1 :: (closed ++ assigned))

/-- The contact-identifier list of lines 342-345: the viewer's email and both
phones (kept even when null), each tenant's email and phone1 (kept even when
null), and each tenant's non-null phone2. -/
def messageValues (user : UserProfile) (tenants : List UserProfile) :
    List (Option String) :=
  [some user.email, user.phone1, user.phone2]
    ++ tenants.map (fun t => some t.email)
    ++ tenants.map (fun t => t.phone1)
    ++ (tenants.filter (fun t => t.phone2.isSome)).map (fun t => t.phone2)

/-- The `Q(sender=x) | Q(recipients=x)` disjunction of lines 347-349.  A null
identifier (`Q(sender=None)`) matches no row, since the message sender and
recipients columns are non-null text. -/
def messageMatches (values : List (Option String)) (m : MessageRec) : Bool :=
  values.any (fun v => v == some m.sender || v == some m.recipients)

/-- Event for one matching message (lines 352-357); `person` is the viewing
user. -/
def messageEvent (user : UserProfile) (m : MessageRec) : Event :=
  ⟨m.typeName ++ ": " ++ m.headline, m.creation_date, user, "View",
    angular_sref "message-detail" m.id, m.typeName⟩

/-- Events for one invoice of the `payer=user | payee=user` loop
(lines 364-390): "Created" at `issued_date`, "Due" when `due_date <= today`,
"Paid" when `paid_date <= today`; `person` is the other party. -/
def invoiceEvents (user : UserProfile) (today : Date) (i : Invoice) : List Event :=
  let person := if i.payer ≠ user then i.payer else i.payee
  let created : Event :=
    ⟨i.typeName ++ " Created: " ++ toString i.amount, .d i.issued_date, person,
      "View Invoice", angular_sref "invoice-detail" i.id, "invoice"⟩
  let dueEvs : List Event :=
    match i.due_date with
    | some dd =>
      if dd.le today then
        [⟨i.typeName ++ " Due: " ++ toString i.amount, .d dd, person,
          "View Invoice", angular_sref "invoice-detail" i.id, "invoice"⟩]
      else []
    | none => []
  let paidEvs : List Event :=
    match i.paid_date with
    | some pd =>
      if pd.le today then
        [⟨i.typeName ++ " Paid: " ++ toString i.amount, .d pd, person,
          "View Invoice", angular_sref "invoice-detail" i.id, "invoice"⟩]
      else []
    | none => []
  created :: (dueEvs ++ paidEvs)

/-- Descending order on events by truncated date (the `sort(key=..., reverse=True)`
of line 392). -/
def eventGe (a b : Event) : Prop := Date.le (DT.trunc b.date) (DT.trunc a.date) = true

instance : DecidableRel eventGe := fun a b => by unfold eventGe; infer_instance

/-- Line 392: sort the deduplicated events newest first, comparing truncated
dates. -/
def sortDesc (l : List Event) : List Event := List.insertionSort eventGe l

/-- `Property.get_activity` (lines 183-393).  `sysToday` is the ambient
wall-clock date: line 340 computes the active tenants with
`self.get_tenants(date.today())`, not with the `today` parameter.  The final
line models `set(activity)` by `List.dedup` followed by the descending sort. -/
def Property.get_activity (p : Property) (db : DB) (user : UserProfile)
    (today sysToday : Date) : Except String (List Event) := do
  let a1 := concatMap (leaseEvents today)
    (db.leases.filter (fun l => l.tenant == user && l.property == p.id))
  let a2 := if user ∈ p.owners then
      concatMap (leaseEvents today) (db.leases.filter (fun l => l.property == p.id))
    else []
  let a3 := concatMap (leaseEvents today)
    (db.leases.filter (fun l => managesProperty db user l.property))
  let mgmtCs := db.contracts.filter (fun c => c.manager == user && c.property == p.id)
  let a4 := concatMap (mgmtEvents today) mgmtCs
  let contract := mgmtCs.getLast?
  let a5 ← exceptConcatMap (assignedReqEvents contract today)
    (db.requests.filter (fun r => r.assignee == user && r.property == p.id))
  let a6 ← exceptConcatMap (createdReqEvents contract today)
    (db.requests.filter (fun r => r.created_by == user && r.property == p.id))
  let tenants := p.get_tenants db sysToday
  let a7 := if tenants.length > 0 then
      (db.messages.filter (fun m => messageMatches (messageValues user tenants) m
        && m.property == p.id && m.user_profile == user)).map (messageEvent user)
    else []
  let a8 := concatMap (invoiceEvents user today)
    (db.invoices.filter (fun i => (i.payer == user || i.payee == user)
      && i.property == p.id))
  pure (sortDesc (a1 ++ a2 ++ a3 ++ a4 ++ a5 ++ a6 ++ a7 ++ a8).dedup)

/-- The spec's wording for the rolled-back due date (step 3 of the
RentStatusCalculator algorithm): one month before `tm`, re-anchored to
`dueDay`, clamped to the prior month's last day when that day does not exist
there.  Stated from the spec, to be compared with `lastDue` from the source. -/
def specPriorDue (tm : Date) (dueDay : Nat) : Date :=
  ⟨if tm.month = 1 then tm.year - 1 else tm.year,
   if tm.month = 1 then 12 else tm.month - 1,
   min dueDay (daysInMonth (if tm.month = 1 then tm.year - 1 else tm.year)
                           (if tm.month = 1 then 12 else tm.month - 1))⟩

/-! Concrete record-store snapshots used to instantiate the theorems. -/

/-- A viewing user. -/
def uA : UserProfile := ⟨1, "a", none, none⟩

/-- Another user. -/
def uB : UserProfile := ⟨2, "b", none, none⟩

/-- A tenant. -/
def tenant0 : UserProfile := ⟨3, "t", none, none⟩

/-- A property with no listed owners. -/
def pA : Property := ⟨1, []⟩

/-- A maintenance request on `pA` assigned to `uA`, created by `uB`. -/
def reqAssigned : MaintenanceRequest :=
  ⟨5, 1, uB, uA, "leak", ⟨2024, 1, 10⟩, none, none⟩

/-- A store with one assigned maintenance request and no management
contracts. -/
def dbAssigned : DB := ⟨[], [], [reqAssigned], [], [], []⟩

/-- A maintenance request on `pA` created by `uA`, resolved on
2024-01-20, never assigned a date. -/
def reqCreated : MaintenanceRequest :=
  ⟨6, 1, uA, uB, "door", ⟨2024, 1, 10⟩, none, some ⟨2024, 1, 20⟩⟩

/-- A store with one created-and-resolved maintenance request and no
management contracts. -/
def dbCreated : DB := ⟨[], [], [reqCreated], [], [], []⟩

/-- 2024-02-01. -/
def dayFeb : Date := ⟨2024, 2, 1⟩

/-- 2024-03-05. -/
def dayMar : Date := ⟨2024, 3, 5⟩

/-- A lease of `pA` to `tenant0` running 2024-03-01 to 2024-12-31, rent due
on the 1st, five days of grace. -/
def lease0 : LeaseContract := ⟨7, 1, tenant0, ⟨2024, 3, 1⟩, ⟨2024, 12, 31⟩, 1, 5⟩

/-- A paid Rent invoice from `tenant0` due 2024-03-01. -/
def inv0 : Invoice :=
  ⟨8, 1, "Rent", tenant0, uA, 100, ⟨2024, 2, 20⟩, some ⟨2024, 3, 1⟩, some ⟨2024, 3, 2⟩⟩

/-- A store with `lease0` and its paid rent invoice. -/
def db0 : DB := ⟨[lease0], [], [], [], [inv0], ["Rent"]⟩

/-- A message on `pA` from the tenant's address to the viewer's. -/
def msg0 : MessageRec := ⟨9, 1, uA, "t", "a", "hello", .d ⟨2024, 2, 2⟩, "Email"⟩

/-- A store with `lease0` and one message. -/
def dbMsg : DB := ⟨[lease0], [], [], [msg0], [], []⟩

/-- A lease that ended 2023-12-31. -/
def leaseOld : LeaseContract := ⟨11, 1, tenant0, ⟨2023, 1, 1⟩, ⟨2023, 12, 31⟩, 1, 5⟩

/-- A store whose only lease already ended. -/
def dbOld : DB := ⟨[leaseOld], [], [], [], [], ["Rent"]⟩

/-- A store with `lease0` active and no invoices at all. -/
def dbNoInv : DB := ⟨[lease0], [], [], [], [], ["Rent"]⟩

/-- A lease of `pA` to the viewer `uA`, 2024-01-01 to 2024-06-30. -/
def leaseU : LeaseContract := ⟨10, 1, uA, ⟨2024, 1, 1⟩, ⟨2024, 6, 30⟩, 1, 5⟩

/-- A store holding only `leaseU`. -/
def dbLease : DB := ⟨[leaseU], [], [], [], [], []⟩

/-- 2024-07-15. -/
def dayJul : Date := ⟨2024, 7, 15⟩

/-- The "Lease Started" event of `leaseU`. -/
def evStarted : Event :=
  ⟨"Lease Started", .d ⟨2024, 1, 1⟩, uA, "View Lease", "lease-detail/10", "lease"⟩

/-- The "Lease Ended" event of `leaseU`. -/
def evEnded : Event :=
  ⟨"Lease Ended", .d ⟨2024, 6, 30⟩, uA, "View Lease", "lease-detail/10", "lease"⟩

/-! Order facts about `Date` comparisons, used for the sortedness and
rent-status proofs. -/

theorem Date.lt_iff {a b : Date} : a.lt b = true ↔
    (a.year < b.year ∨ (a.year = b.year ∧
      (a.month < b.month ∨ (a.month = b.month ∧ a.day < b.day)))) := by
  simp [Date.lt]

theorem Date.le_iff {a b : Date} : a.le b = true ↔ (a.lt b = true ∨ a = b) := by
  simp [Date.le]

theorem Date.le_total (a b : Date) : a.le b = true ∨ b.le a = true := by
  obtain ⟨y1, m1, d1⟩ := a
  obtain ⟨y2, m2, d2⟩ := b
  simp only [Date.le_iff, Date.lt_iff, Date.mk.injEq]
  omega

theorem Date.le_trans {a b c : Date} (h1 : a.le b = true) (h2 : b.le c = true) :
    a.le c = true := by
  obtain ⟨y1, m1, d1⟩ := a
  obtain ⟨y2, m2, d2⟩ := b
  obtain ⟨y3, m3, d3⟩ := c
  simp only [Date.le_iff, Date.lt_iff, Date.mk.injEq] at h1 h2 ⊢
  omega

theorem Date.lt_eq_false_of_le {a b : Date} (h : a.le b = true) :
    b.lt a = false := by
  obtain ⟨y1, m1, d1⟩ := a
  obtain ⟨y2, m2, d2⟩ := b
  simp only [Date.le_iff, Date.lt_iff, Date.mk.injEq] at h
  simp only [Date.lt, decide_eq_false_iff_not]
  omega

instance : IsTotal Event eventGe :=
  ⟨fun a b => Date.le_total (DT.trunc b.date) (DT.trunc a.date)⟩

instance : IsTrans Event eventGe :=
  ⟨fun _ _ _ hab hbc => Date.le_trans hbc hab⟩

/-- Every successful `get_activity` result is the descending sort of a
deduplicated event list (line 391-392 post-processing). -/
theorem get_activity_ok_shape {p : Property} {db : DB} {user : UserProfile}
    {today sysToday : Date} {l : List Event}
    (h : p.get_activity db user today sysToday = .ok l) :
    ∃ xs : List Event, l = sortDesc xs.dedup := by
  unfold Property.get_activity at h
  simp only [bind, Except.bind, pure, Except.pure] at h
  split at h
  · exact absurd h (by simp)
  · split at h
    · exact absurd h (by simp)
    · exact ⟨_, (Except.ok.inj h).symm⟩

/-- C7: for every property, user, and date, the list returned by
`get_activity` contains no two events with identical (headline, date, person,
actionText, action, type) field tuples: events equal on all six fields are
collapsed to one. -/
theorem get_activity_nodup (p : Property) (db : DB) (user : UserProfile)
    (today sysToday : Date) (l : List Event)
    (h : p.get_activity db user today sysToday = .ok l) : l.Nodup := by
  obtain ⟨xs, rfl⟩ := get_activity_ok_shape h
  exact ((List.perm_insertionSort eventGe xs.dedup).nodup_iff).mpr
    (List.nodup_dedup xs)

/-- C8: for every property, user, and date, the list returned by
`get_activity` is sorted descending by event date, where datetime values are
truncated to date-only for the comparison. -/
theorem get_activity_sorted (p : Property) (db : DB) (user : UserProfile)
    (today sysToday : Date) (l : List Event)
    (h : p.get_activity db user today sysToday = .ok l) :
    l.Pairwise (fun a b => Date.le (DT.trunc b.date) (DT.trunc a.date) = true) := by
  obtain ⟨xs, rfl⟩ := get_activity_ok_shape h
  exact List.sorted_insertionSort eventGe xs.dedup

/-- Evaluation of `get_rent_status` for a store holding exactly one lease,
active on the reference date, with the wall clock equal to the reference
date: the status is decided by the rent-invoice lookup for `last_due`. -/
theorem rent_status_singleton
    (p : Property) (db : DB) (today : Date) (lease : LeaseContract)
    (hdb : db.leases = [lease]) (hp : lease.property = p.id)
    (hs : lease.start_date.le today = true) (he : today.le lease.end_date = true)
    (ht : db.invoiceTypes = ["Rent"]) :
    p.get_rent_status db today today =
      match invoiceGet db "Rent" (lastDue today lease.rent_due_day) lease.tenant with
      | .error e => .error e
      | .ok none => .ok "!!"
      | .ok (some inv) =>
        .ok (if inv.paid_date.isSome then "Paid"
             else if (lastDue today lease.rent_due_day).le today
                 && today.toDays ≤ (lastDue today lease.rent_due_day).toDays
                    + lease.days_grace_period then "Due"
             else "Late") := by
  have hact : p.get_active_leases db today = [lease] := by
    unfold Property.get_active_leases
    rw [hdb]
    simp [hp, hs, he]
  have htg : invoiceTypeGet db "Rent" = .ok "Rent" := by
    unfold invoiceTypeGet
    rw [ht]
    rfl
  have hlt : today.lt lease.start_date = false := Date.lt_eq_false_of_le hs
  unfold Property.get_rent_status
  rw [hact]
  unfold rentStatusLoop
  rw [hlt, htg]
  simp only [Bool.false_eq_true, if_false]
  cases hi : invoiceGet db "Rent" (lastDue today lease.rent_due_day) lease.tenant with
  | error e => rfl
  | ok o =>
    cases o with
    | none => rfl
    | some inv => rfl

/-- C2: for a property with an active lease on the reference date (wall clock
equal to the reference date) and a matching Rent invoice for `last_due`,
`get_rent_status` returns "Paid" iff the invoice's `paid_date` is set; if
unpaid, it returns "Due" iff `last_due <= today <= last_due + grace_period`,
and "Late" otherwise. -/
theorem rent_status_paid_due_late
    (p : Property) (db : DB) (today : Date) (lease : LeaseContract) (inv : Invoice)
    (hdb : db.leases = [lease]) (hp : lease.property = p.id)
    (hs : lease.start_date.le today = true) (he : today.le lease.end_date = true)
    (ht : db.invoiceTypes = ["Rent"])
    (hi : invoiceGet db "Rent" (lastDue today lease.rent_due_day) lease.tenant
          = .ok (some inv)) :
    (p.get_rent_status db today today = .ok "Paid" ↔ inv.paid_date.isSome = true) ∧
    (inv.paid_date = none →
      ((p.get_rent_status db today today = .ok "Due" ↔
        ((lastDue today lease.rent_due_day).le today = true ∧
         today.toDays ≤ (lastDue today lease.rent_due_day).toDays
           + lease.days_grace_period)) ∧
       (p.get_rent_status db today today = .ok "Late" ↔
        ¬((lastDue today lease.rent_due_day).le today = true ∧
          today.toDays ≤ (lastDue today lease.rent_due_day).toDays
            + lease.days_grace_period)))) := by
  have hev := rent_status_singleton p db today lease hdb hp hs he ht
  rw [hi] at hev
  by_cases hps : inv.paid_date.isSome = true
  · rw [hev]
    simp [hps, Option.isSome_iff_exists]
    intro h
    rw [h] at hps
    simp at hps
  · rw [hev]
    simp only [hps, if_false, Bool.false_eq_true]
    constructor
    · simp only [Except.ok.injEq]
      constructor
      · intro h
        exact absurd h (by split <;> simp_all)
      · intro h
        exact h.elim
    · intro _
      by_cases hw : (lastDue today lease.rent_due_day).le today = true ∧
          today.toDays ≤ (lastDue today lease.rent_due_day).toDays
            + lease.days_grace_period
      · have : ((lastDue today lease.rent_due_day).le today
            && decide (today.toDays ≤ (lastDue today lease.rent_due_day).toDays
              + lease.days_grace_period)) = true := by
          simp [hw.1, hw.2]
        simp [this, hw]
      · have : ((lastDue today lease.rent_due_day).le today
            && decide (today.toDays ≤ (lastDue today lease.rent_due_day).toDays
              + lease.days_grace_period)) = false := by
          rw [Bool.and_eq_false_iff]
          by_cases h1 : (lastDue today lease.rent_due_day).le today = true
          · right
            simp only [decide_eq_false_iff_not]
            intro h2
            exact hw ⟨h1, h2⟩
          · left
            exact Bool.eq_false_iff.mpr h1
        simp [this, hw]

/-- C3: with the wall clock equal to the reference date, `get_rent_status`
returns "!!" iff no Rent invoice with `due_date == last_due` exists for the
active lease's tenant despite an active lease; and when zero leases are active
on the reference date (and none starts after it), the result defaults to
"!!". -/
theorem rent_status_bang :
    (∀ (p : Property) (db : DB) (today : Date) (lease : LeaseContract),
      db.leases = [lease] → lease.property = p.id →
      lease.start_date.le today = true → today.le lease.end_date = true →
      db.invoiceTypes = ["Rent"] →
      (p.get_rent_status db today today = .ok "!!" ↔
        db.invoices.filter (fun i => i.typeName == "Rent"
          && i.due_date == some (lastDue today lease.rent_due_day)
          && i.payer == lease.tenant) = [])) ∧
    (∀ (p : Property) (db : DB) (today : Date),
      p.get_active_leases db today = [] →
      (∀ l ∈ db.leases, today.lt l.start_date = false) →
      p.get_rent_status db today today = .ok "!!") := by
  constructor
  · intro p db today lease hdb hp hs he ht
    have hev := rent_status_singleton p db today lease hdb hp hs he ht
    rw [hev]
    unfold invoiceGet
    cases hf : db.invoices.filter (fun i => i.typeName == "Rent"
        && i.due_date == some (lastDue today lease.rent_due_day)
        && i.payer == lease.tenant) with
    | nil => simp
    | cons x xs =>
      cases xs with
      | nil =>
        simp only [List.cons_ne_nil, iff_false]
        split
        · simp
        · split <;> simp
      | cons y ys =>
        simp only [List.cons_ne_nil, iff_false]
        simp
  · intro p db today hact _
    unfold Property.get_rent_status
    rw [hact]
    rfl

/-- C5: when `rent_due_day` exceeds the number of days in the reference
date's month, `this_month_due_date` is the last calendar day of that month;
otherwise it is the date in the reference date's year and month with
day = `rent_due_day`. -/
theorem this_month_due_day (today : Date) (dueDay : Nat) (h1 : 1 ≤ dueDay) :
    thisMonthDue today dueDay =
      if daysInMonth today.year today.month < dueDay then
        ⟨today.year, today.month, daysInMonth today.year today.month⟩
      else ⟨today.year, today.month, dueDay⟩ := by
  unfold thisMonthDue
  by_cases h : dueDay ≤ daysInMonth today.year today.month
  · rw [if_pos ⟨h1, h⟩, if_neg (by omega)]
  · rw [if_neg (by omega), if_pos (by omega)]

/-- The month-rollback step: stepping back a month and re-anchoring to
`dueDay` yields `dueDay` clamped to the prior month's length. -/
theorem subMonth_reanchor (tm : Date) (dueDay : Nat) :
    (if (subMonth tm).day ≠ dueDay then withDay (subMonth tm) dueDay
     else subMonth tm) = specPriorDue tm dueDay := by
  unfold subMonth withDay specPriorDue
  dsimp only
  by_cases hd : min tm.day (daysInMonth (if tm.month = 1 then tm.year - 1 else tm.year)
      (if tm.month = 1 then 12 else tm.month - 1)) = dueDay
  · rw [if_neg (fun h => h hd)]
    simp only [Date.mk.injEq, true_and]
    omega
  · rw [if_pos hd]

/-- C6: if the reference date is before `this_month_due_date` then `last_due`
is one month before `this_month_due_date` re-anchored to `rent_due_day`
(clamped to the prior month's last day when that day does not exist there);
otherwise `last_due` equals `this_month_due_date`. -/
theorem last_due_reanchors (today : Date) (dueDay : Nat) :
    lastDue today dueDay =
      if today.lt (thisMonthDue today dueDay) = true then
        specPriorDue (thisMonthDue today dueDay) dueDay
      else thisMonthDue today dueDay := by
  unfold lastDue
  by_cases hlt : today.lt (thisMonthDue today dueDay) = true
  · rw [if_pos hlt, if_pos hlt]
    exact subMonth_reanchor (thisMonthDue today dueDay) dueDay
  · rw [if_neg hlt, if_neg hlt]

/-- C1: the spec says both operations are total over valid arguments,
including when the property has maintenance requests but no management
contracts for the user; evaluating `get_activity` on such a store raises the
modelled `NameError` (the `contract` loop variable of the management-contract
loop is read before it was ever bound, line 280 of `src/models.py`) instead of
returning a list. -/
theorem get_activity_raises_on_assigned_request :
    pA.get_activity dbAssigned uA dayFeb dayFeb =
      Except.error "NameError: contract" := rfl

/-- C9: for a request created by the viewing user with `resolution_date` set
and `<= today` (and no assigned date), the spec promises exactly two events
("New Request" and "Closed Request"); the code instead raises the modelled
`NameError` when building the "Closed Request" event, because line 321 of
`src/models.py` reads `contract.assignee` from the never-bound loop
variable. -/
theorem get_activity_raises_on_closed_request :
    pA.get_activity dbCreated uA dayFeb dayFeb =
      Except.error "NameError: contract" := rfl

/-- C4 counterexample: in `db0` no lease is active on 2024-02-01 and one lease
starts after it, yet `get_rent_status` (wall clock equal to the reference
date) returns "!!", not the "NA" the claim requires. -/
theorem rent_status_na_counterexample :
    (db0.leases.all
      (fun l => !(l.start_date.le dayFeb && dayFeb.le l.end_date))) = true ∧
    (db0.leases.any (fun l => dayFeb.lt l.start_date)) = true ∧
    pA.get_rent_status db0 dayFeb dayFeb = Except.ok "!!" := ⟨rfl, rfl, rfl⟩

/-- C4 amended: `get_rent_status` returns "NA" when at least one lease is
active on the wall-clock date and the reference date precedes every such
lease's start date; when no lease is active on the wall-clock date the result
is "!!" instead. -/
theorem rent_status_na_wall_clock
    (p : Property) (db : DB) (today sysToday : Date)
    (lease : LeaseContract) (rest : List LeaseContract)
    (hact : p.get_active_leases db sysToday = lease :: rest)
    (hall : ∀ l ∈ lease :: rest, today.lt l.start_date = true) :
    p.get_rent_status db today sysToday = .ok "NA" := by
  unfold Property.get_rent_status
  rw [hact]
  unfold rentStatusLoop
  rw [hall lease (List.mem_cons_self lease rest)]
  simp

/-- Witness for the amended C4: `lease0` is active on 2024-03-05 and
2024-02-01 precedes its start, so the status computed with that wall clock is
"NA". -/
theorem rent_status_na_wall_clock_witness :
    pA.get_rent_status db0 dayFeb dayMar = Except.ok "NA" :=
  rent_status_na_wall_clock pA db0 dayFeb dayMar lease0 [] rfl (by decide)

/-- C10: with a fixed store and fixed arguments, moving the ambient wall
clock changes the results of both operations (lines 106 and 340 of
`src/models.py` read `date.today()`). -/
theorem results_depend_on_wall_clock :
    pA.get_rent_status db0 dayMar dayMar = Except.ok "Paid" ∧
    pA.get_rent_status db0 dayMar dayFeb = Except.ok "!!" ∧
    pA.get_activity dbMsg uA dayMar dayMar = Except.ok [messageEvent uA msg0] ∧
    pA.get_activity dbMsg uA dayMar dayFeb = Except.ok [] :=
  ⟨rfl, rfl, rfl, rfl⟩

/-- Witness for C2: `db0` holds the active `lease0` and its paid rent
invoice, so the status on 2024-03-05 is "Paid". -/
theorem rent_status_paid_due_late_witness :
    pA.get_rent_status db0 dayMar dayMar = Except.ok "Paid" :=
  (rent_status_paid_due_late pA db0 dayMar lease0 inv0
    rfl rfl rfl rfl rfl rfl).1.mpr rfl

/-- Witness for C3: with the active `lease0` but an empty invoice table the
status is "!!", and with only an expired lease it is also "!!". -/
theorem rent_status_bang_witness :
    pA.get_rent_status dbNoInv dayMar dayMar = Except.ok "!!" ∧
    pA.get_rent_status dbOld dayMar dayMar = Except.ok "!!" :=
  ⟨(rent_status_bang.1 pA dbNoInv dayMar lease0 rfl rfl rfl rfl rfl).mpr rfl,
   rent_status_bang.2 pA dbOld dayMar rfl (by decide)⟩

/-- Witness for C5: rent due day 31 in February 2024 resolves to
February 29. -/
theorem this_month_due_day_witness :
    1 ≤ 31 ∧ thisMonthDue ⟨2024, 2, 10⟩ 31 =
      (if daysInMonth (Date.mk 2024 2 10).year (Date.mk 2024 2 10).month < 31 then
        ⟨(Date.mk 2024 2 10).year, (Date.mk 2024 2 10).month,
         daysInMonth (Date.mk 2024 2 10).year (Date.mk 2024 2 10).month⟩
      else ⟨(Date.mk 2024 2 10).year, (Date.mk 2024 2 10).month, 31⟩) :=
  ⟨by decide, this_month_due_day ⟨2024, 2, 10⟩ 31 (by decide)⟩

/-- Witness for C7: a concrete activity feed and its deduplication. -/
theorem get_activity_nodup_witness :
    pA.get_activity dbLease uA dayJul dayJul = Except.ok [evEnded, evStarted] ∧
    ([evEnded, evStarted] : List Event).Nodup :=
  ⟨rfl, get_activity_nodup pA dbLease uA dayJul dayJul [evEnded, evStarted] rfl⟩

/-- Witness for C8: a concrete activity feed and its descending order. -/
theorem get_activity_sorted_witness :
    pA.get_activity dbLease uA dayJul dayJul = Except.ok [evEnded, evStarted] ∧
    ([evEnded, evStarted] : List Event).Pairwise
      (fun a b => Date.le (DT.trunc b.date) (DT.trunc a.date) = true) :=
  ⟨rfl, get_activity_sorted pA dbLease uA dayJul dayJul [evEnded, evStarted] rfl⟩

end NS
